import Mathlib

/-!
# Verification of the stormpath-cli generic resource action engine

This file gives a shallow embedding, in Lean 4, of the metadata-driven CRUD
engine of `stormpath_cli/actions.py`, and proves properties of it.

Modelling conventions:

* A Python `dict` with string keys is modelled as an association list
  `List (String × α)` with `dictGet` / `dictSet` / `dictPop` mirroring
  `d.get(k)`, `d[k] = v` (update-in-place keeps the key's position, a new key
  is appended at the end, matching CPython's insertion-ordered dicts) and
  `d.pop(k)`.
* Python values appearing in the flag map / attribute sets (strings, booleans,
  `None`, parsed JSON) are modelled by the inductive type `Value`, with
  `Value.truthy` mirroring Python truthiness of those values.
* The resource kinds (the `*List` collection classes keyed in the module-level
  tables) are the closed enumeration `Kind`.
* The module-level mutable table `ATTRIBUTE_MAPS` (which
  `_prompt_if_missing_parameters` mutates in place via `pop('href')`) is
  modelled as a value of type `Kind → Schema` threaded through the operations;
  `initATTRIBUTE_MAPS` is its import-time contents, and
  `prompt_if_missing_parameters` returns the updated table alongside its
  result, so cross-call sharing of the mutation is explicit.
* External collaborators (the JSON parser `json.loads`, the resource fetch
  `get_resource`, the normalizer `get_resource_data`, the interactive prompt
  and `input()`) are parameters of the operations that use them.
* `raise ValueError(msg)` is modelled as `Except.error msg`; the distinct
  message shapes realise the spec's `UnknownAttribute` / `MalformedPayload` /
  `MissingIdentifier` taxonomy.
-/

/-- The closed set of resource kinds managed by the engine (the collection
classes `AccountList`, `ApplicationList`, `DirectoryList`, `GroupList`,
`AccountStoreMappingList` used as keys of the module-level tables). -/
inductive Kind where
  | account
  | application
  | directory
  | group
  | accountStoreMapping
deriving DecidableEq, Repr

/-- A Python value as it appears in the CLI flag map and in attribute sets:
a string, a boolean, an integer, `None`, a JSON/dict object, or a list. -/
inductive Value where
  | str (s : String)
  | bool (b : Bool)
  | int (n : Int)
  | null
  | obj (fields : List (String × Value))
  | arr (elems : List Value)
deriving Repr

/-- Python truthiness of a `Value`: empty string, `False`, `0`, `None`, empty
dict and empty list are falsy, everything else is truthy. -/
def Value.truthy : Value → Bool
  | .str s => !s.isEmpty
  | .bool b => b
  | .int n => n != 0
  | .null => false
  | .obj fields => !fields.isEmpty
  | .arr elems => !elems.isEmpty

/-- `d.get(k)` on an insertion-ordered dict modelled as an association list. -/
def dictGet {α : Type} (m : List (String × α)) (k : String) : Option α :=
  match m with
  | [] => Option.none
  | (k', v) :: rest => if k' = k then some v else dictGet rest k

/-- `d[k] = v`: updating an existing key keeps its position, a new key is
appended at the end (CPython insertion-ordered dict semantics). -/
def dictSet {α : Type} (m : List (String × α)) (k : String) (v : α) :
    List (String × α) :=
  match m with
  | [] => [(k, v)]
  | (k', v') :: rest =>
    if k' = k then (k, v) :: rest else (k', v') :: dictSet rest k v

/-- `d.pop(k)`: remove the entry for `k` (dict keys are unique, so removing
the first occurrence is exact). -/
def dictPop {α : Type} (m : List (String × α)) (k : String) :
    List (String × α) :=
  match m with
  | [] => []
  | (k', v') :: rest => if k' = k then rest else (k', v') :: dictPop rest k

/-- A per-kind attribute schema: an ordered mapping from semantic field name
to external flag name, as in the module-level tables. -/
abbrev Schema := List (String × String)

/-- The import-time contents of the module-level `ATTRIBUTE_MAPS` table
(full schema of every kind). -/
def initATTRIBUTE_MAPS : Kind → Schema
  | .account =>
    [("username", "--username"), ("email", "--email"),
     ("given_name", "--given-name"), ("middle_name", "--middle-name"),
     ("surname", "--surname"), ("password", "--password"),
     ("status", "--status"), ("href", "--href")]
  | .application =>
    [("name", "--name"), ("description", "--description"), ("href", "--href")]
  | .accountStoreMapping =>
    [("href", "--href"), ("account_store", "--href"),
     ("application", "--in-application"),
     ("is_default_account_store", "--is-default-account-store"),
     ("is_default_group_store", "--is-default-group-store")]
  | .directory =>
    [("name", "--name"), ("description", "--description"), ("href", "--href")]
  | .group =>
    [("name", "--name"), ("description", "--description"), ("href", "--href")]

/-- The `REQUIRED_ATTRIBUTES` table (required subset used by the create
path's prompter). -/
def REQUIRED_ATTRIBUTES : Kind → Schema
  | .account =>
    [("email", "--email"), ("given_name", "--given-name"),
     ("surname", "--surname"), ("password", "--password")]
  | .application => [("name", "--name")]
  | .directory => [("name", "--name")]
  | .group => [("name", "--name")]
  | .accountStoreMapping =>
    [("application", "--in-application"), ("account_store", "--href")]

/-- The `EXTRA_MAPS` table: side-channel attributes, present only for
applications (`create_directory`). `Option.none` models absence of the key. -/
def EXTRA_MAPS : Kind → Option Schema
  | .application => some [("create_directory", "--create-directory")]
  | _ => Option.none

/-- `SEARCH_ATTRIBUTE_MAPS`: built at import time from a copy of each full
schema by `v.update(dict(status='--status', q='--query'))` (an existing
`status` key keeps its position; missing keys are appended in order). -/
def SEARCH_ATTRIBUTE_MAPS : Kind → Schema := fun k =>
  [("status", "--status"), ("q", "--query")].foldl
    (fun acc p => dictSet acc p.1 p.2) (initATTRIBUTE_MAPS k)

/-- The `RESOURCE_PRIMARY_ATTRIBUTES` table: per-kind ordered candidate
identifying fields. -/
def RESOURCE_PRIMARY_ATTRIBUTES : Kind → List String
  | .account => ["email", "href"]
  | .application => ["name", "href"]
  | .directory => ["name", "href"]
  | .group => ["name", "href"]
  | .accountStoreMapping => ["account_store", "href"]

/-- The docopt-style CLI argument map handed to the actions: a flat flag map
plus the list of inline `name=value` tokens stored under the reserved
`<attributes>` key. -/
structure Args where
  flags : List (String × Value)
  attributes : List String
deriving Repr

/-- Python's single-character `s.replace(a, b)` (used for `-`→`_` and
`_`→` ` normalization). -/
def replaceChar (s : String) (a b : Char) : String :=
  String.mk (s.data.map (fun c => if c = a then b else c))

/-- Python's `c in s` membership test for a single character. -/
def containsChar (s : String) (c : Char) : Bool := s.data.contains c

/-- Split a character list at the first occurrence of `c`: the prefix before
it and — when `c` occurs — the remainder after it. -/
def breakAtChar (c : Char) : List Char → List Char × Option (List Char)
  | [] => ([], Option.none)
  | x :: xs =>
    if x = c then ([], some xs)
    else
      match breakAtChar c xs with
      | (pre, rest) => (x :: pre, rest)

/-- Python's `s.split("=", 1)`: the part before the first `=` and everything
after it (the whole string when no `=` occurs; callers guard on
`containsChar`). -/
def splitFirstEq (s : String) : String × String :=
  match breakAtChar '=' s.data with
  | (pre, some post) => (String.mk pre, String.mk post)
  | (pre, Option.none) => (String.mk pre, "")

/-- Python's `s.upper()` for the ASCII strings compared here. -/
def pyUpper (s : String) : String := String.mk (s.data.map Char.toUpper)

/-- Python's `<=` on strings: lexicographic comparison by code points. -/
def pyCharListLe : List Char → List Char → Bool
  | [], _ => true
  | _ :: _, [] => false
  | x :: xs, y :: ys => if x = y then pyCharListLe xs ys else decide (x < y)

/-- Python's `s.capitalize()`: first character upper-cased, the rest
lower-cased. -/
def pyCapitalize (s : String) : String :=
  match s.data with
  | [] => ""
  | c :: cs => String.mk (c.toUpper :: cs.map Char.toLower)

/-- Insertion of a string into a sorted list, for modelling Python's
`sorted` on the (unique) keys of a dict. -/
def insertSorted (x : String) : List String → List String
  | [] => [x]
  | y :: ys =>
    if pyCharListLe x.data y.data then x :: y :: ys else y :: insertSorted x ys

/-- Python's `sorted` on a list of (unique) strings. -/
def pySorted (xs : List String) : List String := xs.foldr insertSorted []

/-- The token loop of `_gather_resource_attributes`: for each inline
`name=value` token, reject tokens without `=`, split on the first `=`,
normalize hyphens to underscores, look the name up in the kind's full schema
(`attrs`), fail with the unknown-attribute error on a miss, and on a hit
record the value into the flag map under the schema's external flag key. -/
def gatherTokens (attrs : Schema) (tokens : List String) (args : Args) :
    Except String Args :=
  match tokens with
  | [] => .ok args
  | attr :: rest =>
    if ¬ containsChar attr '=' then
      .error ("Unknown resource attribute: " ++ attr)
    else
      match splitFirstEq attr with
      | (name0, value) =>
        let name := replaceChar name0 '-' '_'
        match dictGet attrs name with
        | Option.none => .error ("Unknown resource attribute: " ++ name)
        | some flag =>
          gatherTokens attrs rest
            { args with flags := dictSet args.flags flag (Value.str value) }

/-- `_gather_resource_attributes(coll, args)`, parameterized by the current
contents of `ATTRIBUTE_MAPS[type(coll)]`. -/
def gather_resource_attributes (attrs : Schema) (args : Args) :
    Except String Args :=
  gatherTokens attrs args.attributes args

/-- One step of the parameter build of `_specialized_query`: if the flag
`p.2` is supplied with a truthy value, record `p.1 -> value`. -/
def queryStep (args : Args) (params : List (String × Value))
    (p : String × String) : List (String × Value) :=
  match dictGet args.flags p.2 with
  | some optval =>
    if optval.truthy then dictSet params p.1 optval else params
  | Option.none => params

/-- The flag-driven parameter build of `_specialized_query`: for each
`(name, opt)` of the kind's map, if the flag `opt` is supplied with a truthy
value, record `name -> value`. -/
def query_params (pmap : Schema) (args : Args) : List (String × Value) :=
  pmap.foldl (queryStep args) []

/-- `_specialized_query(coll, args, maps)`: if a truthy `--json` flag is
present, parse it with the external JSON parser `loads` and return the parse
result verbatim (a parse failure is re-raised as the malformed-payload
error); otherwise build the parameter dict from the kind's map. -/
def specialized_query (loads : String → Except String Value)
    (maps : Kind → Schema) (kind : Kind) (args : Args) :
    Except String Value :=
  match dictGet args.flags "--json" with
  | some json_rep =>
    if json_rep.truthy then
      match json_rep with
      | Value.str s =>
        match loads s with
        | .ok v => .ok v
        | .error e => .error ("Error parsing JSON: " ++ e)
      | _ => .error "TypeError: the --json payload is not a string"
    else .ok (Value.obj (query_params (maps kind) args))
  | Option.none => .ok (Value.obj (query_params (maps kind) args))

/-- The per-field filter of `_primary_attribute`'s list comprehension
`[attrs.get(n) for n in attr_names if attrs.get(n)]`. -/
def presentValue (attrs : List (String × Value)) (n : String) : Option Value :=
  match dictGet attrs n with
  | some v => if v.truthy then some v else Option.none
  | Option.none => Option.none

/-- `_primary_attribute(coll, attrs)`: collect the truthy values of the
kind's primary attribute names, fail with the missing-identifier error when
none is present, and return `(attr_names[0], attr_values[0])`. -/
def primary_attribute (kind : Kind) (attrs : List (String × Value)) :
    Except String (String × Value) :=
  let attr_names := RESOURCE_PRIMARY_ATTRIBUTES kind
  let attr_values := attr_names.filterMap (presentValue attrs)
  if !(attr_values.any Value.truthy) then
    .error ("Required attribute '" ++ String.intercalate " or " attr_names
            ++ "' not specified.")
  else
    match attr_names, attr_values with
    | n :: _, v :: _ => .ok (n, v)
    | _, _ => .error "IndexError"

/-- `_check_account_store_mapping(coll, attrs)`: for the account-store-mapping
kind, rewrite `application` and then `account_store` to the nested object
`{'href': attrs.get(key)}` (a missing key yields `None` inside the nested
object); other kinds are returned unchanged. -/
def check_account_store_mapping (kind : Kind)
    (attrs : List (String × Value)) : List (String × Value) :=
  if kind = Kind.accountStoreMapping then
    let attrs := dictSet attrs "application"
      (Value.obj [("href", (dictGet attrs "application").getD Value.null)])
    let attrs := dictSet attrs "account_store"
      (Value.obj [("href", (dictGet attrs "account_store").getD Value.null)])
    attrs
  else attrs

/-- The interactive prompt collaborator (`stormpath_cli.output.prompt` /
`input()`): `ask which msg` is the operator's answer when prompted for field
`which` (`Option.none` for the extra yes/no question) with message `msg`. -/
structure Prompter where
  ask : Option String → Value → String

/-- The observable outcome of `_prompt_if_missing_parameters`: the (shared,
mutated-in-place) argument map, the list of schema fields the operator was
prompted for, and whether the extra create-a-directory question was asked. -/
structure PromptOut where
  args : Args
  promptedFields : List String
  askedCreateDirectory : Bool
deriving Repr

/-- The source's guard `len(supplied_required_arguments) ==
required_coll_args.values()` compares an `int` with a `dict_values` view;
in Python, `==` between an `int` and a non-numeric object is always `False`,
so this condition never holds. We model the cross-type comparison faithfully
as the constantly-false test. -/
def pyIntEqDictValues (_ : Nat) (_ : List String) : Bool := false

/-- The prompting loop of `_prompt_if_missing_parameters`: for each remaining
field (in sorted order), compute its label — for `password` the label is
`args['--email']` (a `KeyError` if that flag is absent), otherwise the
capitalized field name suffixed with `*` when required — ask the operator,
and store the answer into the flag map under the field's external flag key. -/
def promptLoop (io : Prompter) (required_coll_args all_coll_args : Schema) :
    List String → Args → List String → Except String (Args × List String)
  | [], args, prompted => .ok (args, prompted)
  | arg :: rest, args, prompted =>
    let msgE : Except String Value :=
      if arg = "password" then
        match dictGet args.flags "--email" with
        | some m => .ok m
        | Option.none => .error "KeyError: --email"
      else
        let required :=
          if (dictGet required_coll_args arg).isSome then "*" else ""
        .ok (Value.str (pyCapitalize (replaceChar arg '_' ' ') ++ required))
    match msgE with
    | .error e => .error e
    | .ok msg =>
      let v := io.ask (some arg) msg
      match dictGet all_coll_args arg with
      | some flag =>
        promptLoop io required_coll_args all_coll_args rest
          { args with flags := dictSet args.flags flag (Value.str v) }
          (prompted ++ [arg])
      | Option.none => .error "KeyError: prompted field not in schema"

/-- The body of `_prompt_if_missing_parameters` after the in-place
`ATTRIBUTE_MAPS` mutation: compute the supplied required flags, take the
(never-firing) early return, compute the remaining fields, and if any are
left prompt for each of them and — for kinds present in `EXTRA_MAPS` — ask
the create-a-directory question, storing `v != 'n'` under
`--create-directory`. -/
def prompt_body (io : Prompter) (required_coll_args all_coll_args : Schema)
    (kind : Kind) (args : Args) : Except String PromptOut :=
  let supplied_required_arguments :=
    (required_coll_args.map Prod.snd).filter (fun arg =>
      match dictGet args.flags arg with
      | some v => v.truthy
      | Option.none => false)
  if pyIntEqDictValues supplied_required_arguments.length
      (required_coll_args.map Prod.snd) then
    .ok { args := args, promptedFields := [], askedCreateDirectory := false }
  else
    let remaining_coll_args := all_coll_args.filter (fun p =>
      (all_coll_args.map Prod.snd).contains p.2
        && !(supplied_required_arguments.contains p.2))
    if remaining_coll_args.isEmpty then
      .ok { args := args, promptedFields := [], askedCreateDirectory := false }
    else
      match promptLoop io required_coll_args all_coll_args
          (pySorted (remaining_coll_args.map Prod.fst)) args [] with
      | .error e => .error e
      | .ok (args1, prompted) =>
        if (EXTRA_MAPS kind).isSome then
          let v := io.ask Option.none
            (Value.str "Create a directory for this application?[Y/n]")
          .ok { args := { args1 with
                  flags := dictSet args1.flags "--create-directory"
                    (Value.bool (v != "n")) },
                promptedFields := prompted, askedCreateDirectory := true }
        else
          .ok { args := args1, promptedFields := prompted,
                askedCreateDirectory := false }

/-- `_prompt_if_missing_parameters(coll, args)`: first (unconditionally, at
function entry) pop `href` from the shared `ATTRIBUTE_MAPS[type(coll)]` dict
— an in-place mutation of the module-level table, returned here as the first
component — then run the prompting body against the popped schema. -/
def prompt_if_missing_parameters (io : Prompter) (S : Kind → Schema)
    (kind : Kind) (args : Args) :
    (Kind → Schema) × Except String PromptOut :=
  let required_coll_args := REQUIRED_ATTRIBUTES kind
  let all_coll_args :=
    if (dictGet (S kind) "href").isSome then dictPop (S kind) "href"
    else S kind
  (fun k => if k = kind then all_coll_args else S k,
   prompt_body io required_coll_args all_coll_args kind args)

/-- Which collection `list_resources` ends up iterating: the unfiltered
collection, or the result of `coll.query(**q)`. -/
inductive ListOutcome where
  | unfiltered
  | filtered (q : Value)
deriving Repr

/-- `list_resources(coll, args)`: gather inline attributes against the full
schema, build the search query via `_specialized_query` with
`SEARCH_ATTRIBUTE_MAPS`, and apply it as a filter only for kinds other than
the account-store mapping (and only when the query is non-empty). -/
def list_resources (loads : String → Except String Value)
    (S : Kind → Schema) (kind : Kind) (args : Args) :
    Except String ListOutcome :=
  match gather_resource_attributes (S kind) args with
  | .error e => .error e
  | .ok args1 =>
    match specialized_query loads SEARCH_ATTRIBUTE_MAPS kind args1 with
    | .error e => .error e
    | .ok q =>
      if kind ≠ Kind.accountStoreMapping then
        if q.truthy then .ok (ListOutcome.filtered q)
        else .ok ListOutcome.unfiltered
      else .ok ListOutcome.unfiltered

/-- `create_resource(coll, args)` up to the collaborator's `create` call:
gather inline attributes, prompt for missing parameters (mutating the shared
`ATTRIBUTE_MAPS` table, returned as the first component), build the body
attributes from the mutated table, apply the account-store-mapping nesting,
validate that a primary attribute is resolvable, and build the extra
side-channel attributes. Returns the body and extra attribute sets handed to
`coll.create`. -/
def create_resource (loads : String → Except String Value) (io : Prompter)
    (S : Kind → Schema) (kind : Kind) (args : Args) :
    (Kind → Schema) × Except String (List (String × Value) × Value) :=
  match gather_resource_attributes (S kind) args with
  | .error e => (S, .error e)
  | .ok args1 =>
    match prompt_if_missing_parameters io S kind args1 with
    | (S', .error e) => (S', .error e)
    | (S', .ok pout) =>
      match specialized_query loads S' kind pout.args with
      | .error e => (S', .error e)
      | .ok (Value.obj attrs0) =>
        let attrs := check_account_store_mapping kind attrs0
        match primary_attribute kind attrs with
        | .error e => (S', .error e)
        | .ok _ =>
          match specialized_query loads (fun k => (EXTRA_MAPS k).getD [])
              kind pout.args with
          | .error e => (S', .error e)
          | .ok extra => (S', .ok (attrs, extra))
      | .ok _ => (S', .error "AttributeError: attributes payload is not a mapping")

/-- The attribute write loop of `update_resource`: every resolved attribute
except the identifying field and `href` is written onto the fetched
resource (`setattr(resource, name, value)`). -/
def applyAttrs (attr_name : String) (attrs : List (String × Value))
    (resource : List (String × Value)) : List (String × Value) :=
  attrs.foldl
    (fun r p => if p.1 = attr_name ∨ p.1 = "href" then r else dictSet r p.1 p.2)
    resource

/-- `update_resource(coll, args)`: gather inline attributes, build the body
attributes, resolve the primary identifier, fetch the resource via the
collaborator (`fetch`, modelling `get_resource`), overwrite every resolved
attribute except the identifying field and `href`, and return the saved
resource (the single `resource.save()` persists exactly this state). -/
def update_resource (loads : String → Except String Value)
    (fetch : String → Value → List (String × Value))
    (S : Kind → Schema) (kind : Kind) (args : Args) :
    Except String (List (String × Value)) :=
  match gather_resource_attributes (S kind) args with
  | .error e => .error e
  | .ok args1 =>
    match specialized_query loads S kind args1 with
    | .error e => .error e
    | .ok (Value.obj attrs) =>
      match primary_attribute kind attrs with
      | .error e => .error e
      | .ok (attr_name, attr_value) =>
        .ok (applyAttrs attr_name attrs (fetch attr_name attr_value))
    | .ok _ => .error "AttributeError: attributes payload is not a mapping"

/-- The observable outcome of `delete_resource`: whether the remote delete
was performed, the value returned to the caller, and whether the interactive
confirmation was requested. -/
structure DeleteOutcome where
  deleted : Bool
  returned : Option Value
  confirmationAsked : Bool
deriving Repr

/-- `delete_resource(coll, args)`: gather inline attributes, build the body
attributes, resolve the primary identifier, fetch the resource and normalize
it (`get_resource_data`), then — unless `--force` is truthy — ask for
confirmation and abort (no delete, no result) unless the answer upper-cases
to `Y`; on a confirmed delete return nothing, on a forced delete skip the
confirmation and return the pre-deletion record. -/
def delete_resource (loads : String → Except String Value)
    (fetch : String → Value → List (String × Value))
    (get_resource_data : List (String × Value) → Value)
    (input : String) (S : Kind → Schema) (kind : Kind) (args : Args) :
    Except String DeleteOutcome :=
  match gather_resource_attributes (S kind) args with
  | .error e => .error e
  | .ok args1 =>
    match specialized_query loads S kind args1 with
    | .error e => .error e
    | .ok (Value.obj attrs) =>
      match primary_attribute kind attrs with
      | .error e => .error e
      | .ok (attr_name, attr_value) =>
        let resource := fetch attr_name attr_value
        let data := get_resource_data resource
        let force :=
          ((dictGet args1.flags "--force").getD (Value.bool false)).truthy
        if !force then
          if pyUpper input ≠ "Y" then
            .ok { deleted := false, returned := Option.none,
                  confirmationAsked := true }
          else
            .ok { deleted := true, returned := Option.none,
                  confirmationAsked := true }
        else
          .ok { deleted := true, returned := some data,
                confirmationAsked := false }
    | .ok _ => .error "AttributeError: attributes payload is not a mapping"

/-! ## Shared dictionary lemmas -/

theorem dictGet_dictSet_self {α : Type} (m : List (String × α)) (k : String)
    (v : α) : dictGet (dictSet m k v) k = some v := by
  induction m with
  | nil => simp [dictSet, dictGet]
  | cons p rest ih =>
    obtain ⟨k', v'⟩ := p
    by_cases h : k' = k
    · simp [dictSet, dictGet, h]
    · simp [dictSet, dictGet, h, ih]

theorem dictGet_dictSet_ne {α : Type} (m : List (String × α))
    (k k' : String) (v : α) (h : k' ≠ k) :
    dictGet (dictSet m k v) k' = dictGet m k' := by
  induction m with
  | nil => simp [dictSet, dictGet, Ne.symm h]
  | cons p rest ih =>
    obtain ⟨k'', v''⟩ := p
    by_cases hk : k'' = k
    · simp [dictSet, dictGet, hk, Ne.symm h]
    · by_cases hk' : k'' = k'
      · simp [dictSet, dictGet, hk, hk', h]
      · simp [dictSet, dictGet, hk, hk', ih]

theorem dictGet_none_keys {α : Type} (m : List (String × α)) (k : String)
    (h : dictGet m k = Option.none) : ∀ p ∈ m, p.1 ≠ k := by
  induction m with
  | nil => simp
  | cons p rest ih =>
    obtain ⟨k', v'⟩ := p
    by_cases hk : k' = k
    · simp [dictGet, hk] at h
    · intro q hq
      rcases List.mem_cons.mp hq with hq1 | hq1
      · subst hq1; simpa using hk
      · exact ih (by simpa [dictGet, hk] using h) q hq1

/-- Folding `queryStep` never creates an entry whose key is absent from the
schema being folded over. -/
theorem dictGet_foldl_queryStep (pmap : Schema) (args : Args) (k : String)
    (hp : ∀ p ∈ pmap, p.1 ≠ k) :
    ∀ acc, dictGet acc k = Option.none →
      dictGet (pmap.foldl (queryStep args) acc) k = Option.none := by
  induction pmap with
  | nil => intro acc hacc; simpa using hacc
  | cons p rest ih =>
    intro acc hacc
    have hne : p.1 ≠ k := hp p (by simp)
    have hstep : dictGet (queryStep args acc p) k = Option.none := by
      unfold queryStep
      cases dictGet args.flags p.2 with
      | none => exact hacc
      | some optval =>
        by_cases ht : optval.truthy
        · simpa [ht, dictGet_dictSet_ne acc p.1 k optval (Ne.symm hne)]
            using hacc
        · simpa [ht] using hacc
    simpa using ih (fun q hq => hp q (by simp [hq])) (queryStep args acc p) hstep

theorem dictGet_query_params_none (pmap : Schema) (args : Args) (k : String)
    (hp : dictGet pmap k = Option.none) :
    dictGet (query_params pmap args) k = Option.none :=
  dictGet_foldl_queryStep pmap args k (dictGet_none_keys pmap k hp) [] rfl

/-! ## C1 — primary attribute resolution -/

/-- Modelled from the spec: `resolvePrimary` as the spec words it — walk the
kind's `PrimaryAttributeOrder` in order and return the first field present in
`attrs` with a non-empty value, paired with that same field's value. Used to
compare the spec's description against `primary_attribute`. -/
def firstPresentField (attrs : List (String × Value)) :
    List String → Option (String × Value)
  | [] => Option.none
  | n :: rest =>
    match dictGet attrs n with
    | some v =>
      if v.truthy then some (n, v) else firstPresentField attrs rest
    | Option.none => firstPresentField attrs rest

theorem firstPresentField_filterMap (attrs : List (String × Value))
    (order : List String) (n : String) (v : Value)
    (h : firstPresentField attrs order = some (n, v)) :
    v.truthy = true ∧
      ∃ rest, order.filterMap (presentValue attrs) = v :: rest := by
  induction order with
  | nil => simp [firstPresentField] at h
  | cons n0 tl ih =>
    unfold firstPresentField at h
    cases hg : dictGet attrs n0 with
    | none =>
      rw [hg] at h
      obtain ⟨ht, rest, hrest⟩ := ih h
      exact ⟨ht, rest, by simp [List.filterMap_cons, presentValue, hg, hrest]⟩
    | some w =>
      rw [hg] at h
      dsimp only at h
      by_cases ht : w.truthy
      · rw [if_pos ht] at h
        obtain ⟨hn, hv⟩ := Prod.mk.injEq .. ▸ Option.some.injEq .. ▸ h
        subst hv
        exact ⟨ht, tl.filterMap (presentValue attrs),
          by simp [List.filterMap_cons, presentValue, hg, ht]⟩
      · rw [if_neg ht] at h
        obtain ⟨ht', rest, hrest⟩ := ih h
        refine ⟨ht', rest, ?_⟩
        simp [List.filterMap_cons, presentValue, hg, ht, hrest]

/-- C1 (counterexample): for an Account attribute set in which only `href`
is present, the first field of the PrimaryAttributeOrder present with a
non-empty value is `href` (per the spec's `resolvePrimary`), yet
`primary_attribute` returns the field name `email` — the first name of the
order — paired with the `href` value. The claim that resolution "returns the
first such field (walking the order) paired with that same field's value" is
therefore false at this input. -/
theorem primary_attribute_counterexample :
    firstPresentField [("href", Value.str "https://x/1")]
        (RESOURCE_PRIMARY_ATTRIBUTES Kind.account)
      = some ("href", Value.str "https://x/1") ∧
    primary_attribute Kind.account [("href", Value.str "https://x/1")]
      = Except.ok ("email", Value.str "https://x/1") ∧
    primary_attribute Kind.account [("href", Value.str "https://x/1")]
      ≠ Except.ok ("href", Value.str "https://x/1") := by
  refine ⟨rfl, rfl, fun h => ?_⟩
  have h2 : (Except.ok ("href", Value.str "https://x/1")
        : Except String (String × Value))
      = Except.ok ("email", Value.str "https://x/1") := by
    rw [← h]; exact rfl
  injection h2 with h3
  injection h3 with h4 h5
  exact absurd h4 (by decide)

/-- C1 (amended): whenever some field of the kind's PrimaryAttributeOrder is
present in `attrs` with a non-empty value, `primary_attribute` returns the
*first name of the order* (regardless of which field was actually present)
paired with the value of the first present field walking the order; in
particular for Account with both email and href present it returns email
with the email value. -/
theorem primary_attribute_order_head (kind : Kind)
    (attrs : List (String × Value)) (n : String) (v : Value)
    (h : firstPresentField attrs (RESOURCE_PRIMARY_ATTRIBUTES kind)
          = some (n, v)) :
    primary_attribute kind attrs
      = Except.ok ((RESOURCE_PRIMARY_ATTRIBUTES kind).headD "", v) := by
  obtain ⟨htruthy, rest, hfm⟩ :=
    firstPresentField_filterMap attrs (RESOURCE_PRIMARY_ATTRIBUTES kind) n v h
  unfold primary_attribute
  cases horder : RESOURCE_PRIMARY_ATTRIBUTES kind with
  | nil => rw [horder] at hfm; simp at hfm
  | cons n0 tl =>
    rw [horder] at hfm
    simp [hfm, htruthy]

/-- C1 (witness): the Account example with both email and href present —
email takes precedence and its own value is returned. -/
theorem primary_attribute_order_head_witness :
    firstPresentField
        [("email", Value.str "a@b.com"), ("href", Value.str "https://x/1")]
        (RESOURCE_PRIMARY_ATTRIBUTES Kind.account)
      = some ("email", Value.str "a@b.com") ∧
    primary_attribute Kind.account
        [("email", Value.str "a@b.com"), ("href", Value.str "https://x/1")]
      = Except.ok ("email", Value.str "a@b.com") :=
  ⟨rfl, primary_attribute_order_head Kind.account
    [("email", Value.str "a@b.com"), ("href", Value.str "https://x/1")]
    "email" (Value.str "a@b.com") rfl⟩

/-! ## C2 — the create-path required-field check -/

/-- A create invocation of the application kind in which every required
field (`name`) is already supplied with a non-empty value. -/
def c2Args : Args :=
  { flags := [("--name", Value.str "myapp")], attributes := [] }

/-- An operator who answers `docs` to every prompt. -/
def c2IO : Prompter := { ask := fun _ _ => "docs" }

/-- What the prompter actually does on `c2Args`: it prompts for the optional
`description` field, asks the create-a-directory question, and mutates the
argument map accordingly. -/
def c2Observed : PromptOut where
  args :=
    { flags :=
        [("--name", Value.str "myapp"),
         ("--description", Value.str "docs"),
         ("--create-directory", Value.bool true)],
      attributes := [] }
  promptedFields := ["description"]
  askedCreateDirectory := true

/-- C2 (code bug): with every required field of the application kind already
supplied (`--name` is its whole required subset), `_prompt_if_missing_parameters`
still prompts — for the optional `description` field and the
create-a-directory question — and returns a mutated argument map instead of
the arguments unchanged. The intended early return
`if len(supplied_required_arguments) == required_coll_args.values(): return args`
compares an `int` with a `dict_values` view, which is always `False` in
Python, so it never fires. -/
theorem prompt_prompts_despite_required_satisfied :
    (prompt_if_missing_parameters c2IO initATTRIBUTE_MAPS Kind.application
        c2Args).2
      = Except.ok c2Observed ∧
    c2Observed.promptedFields ≠ [] ∧
    c2Observed.args ≠ c2Args := by
  refine ⟨rfl, by decide, fun h => ?_⟩
  have h2 : c2Observed.args.flags.length = c2Args.flags.length := by rw [h]
  exact absurd h2 (by decide)

/-! ## C3 — the account-store-mapping nesting translation -/

/-- C3 (counterexample): an AccountStoreMapping attribute set that lacks both
the `application` and `account_store` keys *gains* both keys from the
translation, each mapped to `{'href': None}` — the code assigns
unconditionally via `attrs.get(...)`, so the claim that a missing key is not
added is false at the empty attribute set. -/
theorem check_account_store_mapping_counterexample :
    check_account_store_mapping Kind.accountStoreMapping []
      = [("application", Value.obj [("href", Value.null)]),
         ("account_store", Value.obj [("href", Value.null)])] ∧
    dictGet (check_account_store_mapping Kind.accountStoreMapping [])
        "application"
      ≠ Option.none := by
  refine ⟨rfl, fun h => ?_⟩
  rw [show dictGet (check_account_store_mapping Kind.accountStoreMapping [])
        "application"
      = some (Value.obj [("href", Value.null)]) from rfl] at h
  exact Option.noConfusion h

/-- C3 (amended): for the AccountStoreMapping kind the translation always
rewrites `application` and `account_store`: a present value is wrapped into
the one-field nested object `{href: value}`, and a missing key is added with
the nested object `{href: None}`; attribute sets of every other kind are
returned unchanged. -/
theorem check_account_store_mapping_spec (attrs : List (String × Value)) :
    check_account_store_mapping Kind.account attrs = attrs ∧
    check_account_store_mapping Kind.application attrs = attrs ∧
    check_account_store_mapping Kind.directory attrs = attrs ∧
    check_account_store_mapping Kind.group attrs = attrs ∧
    dictGet (check_account_store_mapping Kind.accountStoreMapping attrs)
        "application"
      = some (Value.obj
          [("href", (dictGet attrs "application").getD Value.null)]) ∧
    dictGet (check_account_store_mapping Kind.accountStoreMapping attrs)
        "account_store"
      = some (Value.obj
          [("href", (dictGet attrs "account_store").getD Value.null)]) := by
  refine ⟨rfl, rfl, rfl, rfl, ?_, ?_⟩
  · unfold check_account_store_mapping
    rw [if_pos rfl]
    rw [dictGet_dictSet_ne _ "account_store" "application" _ (by decide)]
    exact dictGet_dictSet_self attrs "application" _
  · unfold check_account_store_mapping
    rw [if_pos rfl]
    rw [dictGet_dictSet_self]
    rw [dictGet_dictSet_ne _ "application" "account_store" _ (by decide)]

/-! ## C4 — inline token validation against the full schema -/

/-- Unfolding of one step of the token loop for a token that contains `=`
and splits into `(name0, value)`. -/
theorem gatherTokens_cons (attrs : Schema) (t : String) (rest : List String)
    (args : Args) (name0 value : String)
    (hc : containsChar t '=' = true)
    (hsp : splitFirstEq t = (name0, value)) :
    gatherTokens attrs (t :: rest) args
      = match dictGet attrs (replaceChar name0 '-' '_') with
        | Option.none =>
          Except.error ("Unknown resource attribute: "
            ++ replaceChar name0 '-' '_')
        | some flag =>
          gatherTokens attrs rest
            { args with
              flags := dictSet args.flags flag (Value.str value) } := by
  conv_lhs => rw [gatherTokens.eq_def]
  dsimp only
  rw [if_neg (by simp [hc]), hsp]

/-- C4: for every resource kind and every inline token (the head of the
`<attributes>` list) that contains `=`, if the token's name — after
hyphen-to-underscore normalization — is not a field of the kind's full
schema, attribute gathering fails with the unknown-attribute error naming
the normalized name (and, being pure resolution, does so before any network
call); if the name is a schema field, the token's value is recorded into the
flag map under the schema's external flag key, overwriting any earlier value
for that key. -/
theorem gather_resource_attributes_validates (kind : Kind) (args : Args)
    (t : String) (rest : List String)
    (ht : args.attributes = t :: rest) (hc : containsChar t '=' = true) :
    (dictGet (initATTRIBUTE_MAPS kind)
        (replaceChar (splitFirstEq t).1 '-' '_') = Option.none →
      gather_resource_attributes (initATTRIBUTE_MAPS kind) args
        = Except.error ("Unknown resource attribute: "
            ++ replaceChar (splitFirstEq t).1 '-' '_')) ∧
    (∀ flag, dictGet (initATTRIBUTE_MAPS kind)
        (replaceChar (splitFirstEq t).1 '-' '_') = some flag →
      rest = [] →
      gather_resource_attributes (initATTRIBUTE_MAPS kind) args
        = Except.ok { args with
            flags := dictSet args.flags flag
              (Value.str (splitFirstEq t).2) } ∧
      dictGet (dictSet args.flags flag (Value.str (splitFirstEq t).2)) flag
        = some (Value.str (splitFirstEq t).2)) := by
  have hsp : splitFirstEq t = ((splitFirstEq t).1, (splitFirstEq t).2) := rfl
  constructor
  · intro hmiss
    unfold gather_resource_attributes
    rw [ht, gatherTokens_cons _ t rest args _ _ hc hsp, hmiss]
  · intro flag hflag hrest
    subst hrest
    refine ⟨?_, dictGet_dictSet_self args.flags flag _⟩
    unfold gather_resource_attributes
    rw [ht, gatherTokens_cons _ t [] args _ _ hc hsp, hflag, ht]
    exact rfl

/-- C4 (witness): `bogus-attr=1` for Application fails naming `bogus_attr`;
`given-name=Ann` for Account lands under `--given-name`, overwriting a
previously supplied `--given-name` value. -/
theorem gather_resource_attributes_validates_witness :
    gather_resource_attributes (initATTRIBUTE_MAPS Kind.application)
        { flags := [], attributes := ["bogus-attr=1"] }
      = Except.error "Unknown resource attribute: bogus_attr" ∧
    gather_resource_attributes (initATTRIBUTE_MAPS Kind.account)
        { flags := [("--given-name", Value.str "old")],
          attributes := ["given-name=Ann"] }
      = Except.ok
          { flags := [("--given-name", Value.str "Ann")],
            attributes := ["given-name=Ann"] } := by
  constructor
  · exact (gather_resource_attributes_validates Kind.application
      { flags := [], attributes := ["bogus-attr=1"] }
      "bogus-attr=1" [] rfl rfl).1 rfl
  · exact ((gather_resource_attributes_validates Kind.account
      { flags := [("--given-name", Value.str "old")],
        attributes := ["given-name=Ann"] }
      "given-name=Ann" [] rfl rfl).2 "--given-name" rfl rfl).1

/-! ## C5 — JSON payloads bypass schema validation -/

/-- C5: when the `--json` flag carries a (non-empty) payload string,
`_specialized_query` returns whatever the external JSON parser produces,
verbatim — for *any* schema table `maps` (so no schema validation can be
involved, and a payload with names unknown to the schema still succeeds at
the resolver step) — and fails with the malformed-payload error exactly
when the parser fails. -/
theorem specialized_query_json_verbatim (loads : String → Except String Value)
    (maps : Kind → Schema) (kind : Kind) (args : Args) (s : String)
    (hj : dictGet args.flags "--json" = some (Value.str s)) (hs : s ≠ "") :
    (∀ j, loads s = Except.ok j →
       specialized_query loads maps kind args = Except.ok j) ∧
    (∀ e, loads s = Except.error e →
       specialized_query loads maps kind args
         = Except.error ("Error parsing JSON: " ++ e)) := by
  have hse : s.isEmpty = false := by
    cases hse : s.isEmpty
    · rfl
    · exact absurd ((String.isEmpty_iff s).mp hse) hs
  have ht : (Value.str s).truthy = true := by simp [Value.truthy, hse]
  constructor
  · intro j hok
    simp [specialized_query, hj, ht, hok]
  · intro e herr
    simp [specialized_query, hj, ht, herr]

/-- A JSON parser that succeeds with a mapping whose only name, `bogus`, is
unknown to every schema. -/
def c5LoadsOk : String → Except String Value :=
  fun _ => Except.ok (Value.obj [("bogus", Value.int 1)])

/-- A JSON parser that fails with detail `detail`. -/
def c5LoadsBad : String → Except String Value :=
  fun _ => Except.error "detail"

/-- An Application invocation carrying a JSON payload flag. -/
def c5Args : Args :=
  { flags := [("--json", Value.str "payload")], attributes := [] }

/-- C5 (witness): a parsed `bogus` mapping is returned verbatim for
Application even against an empty schema table, and a parse failure
surfaces as the malformed-payload error. -/
theorem specialized_query_json_verbatim_witness :
    specialized_query c5LoadsOk (fun _ => []) Kind.application c5Args
      = Except.ok (Value.obj [("bogus", Value.int 1)]) ∧
    specialized_query c5LoadsBad initATTRIBUTE_MAPS Kind.application c5Args
      = Except.error "Error parsing JSON: detail" := by
  constructor
  · exact (specialized_query_json_verbatim c5LoadsOk (fun _ => [])
      Kind.application c5Args "payload" rfl (by decide)).1 _ rfl
  · exact (specialized_query_json_verbatim c5LoadsBad initATTRIBUTE_MAPS
      Kind.application c5Args "payload" rfl (by decide)).2 _ rfl

/-! ## C6 — update never overwrites `href` or the identifying field -/

/-- The write loop never touches a field equal to the identifying name or to
`href`. -/
theorem applyAttrs_skip (attr_name : String)
    (attrs : List (String × Value)) (resource : List (String × Value))
    (k : String) (hk : k = attr_name ∨ k = "href") :
    dictGet (applyAttrs attr_name attrs resource) k = dictGet resource k := by
  induction attrs generalizing resource with
  | nil => rfl
  | cons p rest ih =>
    obtain ⟨m, u⟩ := p
    by_cases hskip : m = attr_name ∨ m = "href"
    · simpa [applyAttrs, List.foldl_cons, hskip] using ih resource
    · have hmk : k ≠ m := by
        rcases not_or.mp hskip with ⟨h1, h2⟩
        rcases hk with hk | hk <;> subst hk
        · exact fun he => h1 he.symm
        · exact fun he => h2 he.symm
      have : dictGet (dictSet resource m u) k = dictGet resource k :=
        dictGet_dictSet_ne resource m k u hmk
      simpa [applyAttrs, List.foldl_cons, hskip, this]
        using ih (dictSet resource m u)

/-- The write loop leaves fields that do not occur among the resolved
attributes unchanged. -/
theorem applyAttrs_not_mem (attr_name : String)
    (attrs : List (String × Value)) (resource : List (String × Value))
    (k : String) (hk : ∀ p ∈ attrs, p.1 ≠ k) :
    dictGet (applyAttrs attr_name attrs resource) k = dictGet resource k := by
  induction attrs generalizing resource with
  | nil => rfl
  | cons p rest ih =>
    obtain ⟨m, u⟩ := p
    have hmk : k ≠ m := Ne.symm (hk (m, u) (by simp))
    by_cases hskip : m = attr_name ∨ m = "href"
    · simpa [applyAttrs, List.foldl_cons, hskip]
        using ih resource (fun q hq => hk q (by simp [hq]))
    · have : dictGet (dictSet resource m u) k = dictGet resource k :=
        dictGet_dictSet_ne resource m k u hmk
      simpa [applyAttrs, List.foldl_cons, hskip, this]
        using ih (dictSet resource m u) (fun q hq => hk q (by simp [hq]))

/-- Every resolved attribute other than the identifying field and `href` is
written onto the resource with exactly its resolved value. -/
theorem applyAttrs_written (attr_name : String)
    (attrs : List (String × Value)) (resource : List (String × Value))
    (k : String) (w : Value)
    (hne1 : k ≠ attr_name) (hne2 : k ≠ "href")
    (hnodup : (attrs.map Prod.fst).Nodup)
    (hget : dictGet attrs k = some w) :
    dictGet (applyAttrs attr_name attrs resource) k = some w := by
  induction attrs generalizing resource with
  | nil => simp [dictGet] at hget
  | cons p rest ih =>
    obtain ⟨m, u⟩ := p
    by_cases hm : m = k
    · subst hm
      have hw : u = w := by simpa [dictGet] using hget
      subst hw
      have hskip : ¬ (m = attr_name ∨ m = "href") := by
        intro hor; rcases hor with h | h <;> simp_all
      have hrest : ∀ p ∈ rest, p.1 ≠ m := by
        intro q hq hqe
        have hnotin := (List.nodup_cons.mp hnodup).1
        have hmem : q.1 ∈ rest.map Prod.fst :=
          List.mem_map_of_mem Prod.fst hq
        rw [hqe] at hmem
        exact hnotin hmem
      calc dictGet (applyAttrs attr_name ((m, u) :: rest) resource) m
          = dictGet (applyAttrs attr_name rest (dictSet resource m u)) m := by
            simp [applyAttrs, List.foldl_cons, hskip]
        _ = dictGet (dictSet resource m u) m :=
            applyAttrs_not_mem attr_name rest (dictSet resource m u) m hrest
        _ = some u := dictGet_dictSet_self resource m u
    · have hget' : dictGet rest k = some w := by
        simpa [dictGet, hm] using hget
      have hnd' : (rest.map Prod.fst).Nodup := (List.nodup_cons.mp hnodup).2
      by_cases hskip : m = attr_name ∨ m = "href"
      · simpa [applyAttrs, List.foldl_cons, hskip]
          using ih resource hnd' hget'
      · simpa [applyAttrs, List.foldl_cons, hskip]
          using ih (dictSet resource m u) hnd' hget'

/-- C6: for every update invocation whose attribute resolution succeeds
(`gather` / `_specialized_query` / `_primary_attribute` as hypotheses),
`update_resource` saves exactly the fetched resource with the write loop
applied, and that write loop never overwrites the fetched `href` field or
the resolved identifying field — even when `href=X` was supplied among the
attributes — while every other resolved attribute is written onto the
fetched resource before the single save. -/
theorem update_resource_preserves_identity_fields
    (loads : String → Except String Value)
    (fetch : String → Value → List (String × Value))
    (S : Kind → Schema) (kind : Kind) (args args1 : Args)
    (attrs : List (String × Value)) (n : String) (v : Value)
    (hg : gather_resource_attributes (S kind) args = Except.ok args1)
    (hq : specialized_query loads S kind args1 = Except.ok (Value.obj attrs))
    (hp : primary_attribute kind attrs = Except.ok (n, v)) :
    update_resource loads fetch S kind args
      = Except.ok (applyAttrs n attrs (fetch n v)) ∧
    dictGet (applyAttrs n attrs (fetch n v)) "href"
      = dictGet (fetch n v) "href" ∧
    dictGet (applyAttrs n attrs (fetch n v)) n = dictGet (fetch n v) n ∧
    (∀ m w, m ≠ n → m ≠ "href" → (attrs.map Prod.fst).Nodup →
       dictGet attrs m = some w →
       dictGet (applyAttrs n attrs (fetch n v)) m = some w) := by
  refine ⟨?_, applyAttrs_skip n attrs _ "href" (Or.inr rfl),
    applyAttrs_skip n attrs _ n (Or.inl rfl),
    fun m w hm1 hm2 hnd hgm =>
      applyAttrs_written n attrs _ m w hm1 hm2 hnd hgm⟩
  simp only [update_resource, hg, hq, hp]

/-- The collaborator fetch for the C6 witness: the stored application has an
original `href` and an old `description`. -/
def c6Fetch : String → Value → List (String × Value) := fun _ _ =>
  [("name", Value.str "app"), ("description", Value.str "old"),
   ("href", Value.str "orig")]

/-- An update invocation supplying `--name`, `--description` and the inline
token `href=X`. -/
def c6Args : Args :=
  { flags := [("--name", Value.str "app"),
              ("--description", Value.str "newdesc")],
    attributes := ["href=X"] }

/-- A JSON parser that is never consulted (no `--json` flag is supplied). -/
def c6Loads : String → Except String Value := fun _ => Except.error "unused"

/-- C6 (witness): updating the application writes the new description but
leaves `href` at its fetched value `orig` (not the supplied `X`) and leaves
the identifying `name` field untouched. -/
theorem update_resource_preserves_identity_fields_witness :
    update_resource c6Loads c6Fetch initATTRIBUTE_MAPS Kind.application
        c6Args
      = Except.ok
          [("name", Value.str "app"), ("description", Value.str "newdesc"),
           ("href", Value.str "orig")] ∧
    dictGet (applyAttrs "name"
        [("name", Value.str "app"), ("description", Value.str "newdesc"),
         ("href", Value.str "X")]
        (c6Fetch "name" (Value.str "app"))) "href"
      = some (Value.str "orig") ∧
    dictGet (applyAttrs "name"
        [("name", Value.str "app"), ("description", Value.str "newdesc"),
         ("href", Value.str "X")]
        (c6Fetch "name" (Value.str "app"))) "description"
      = some (Value.str "newdesc") := by
  have h := update_resource_preserves_identity_fields c6Loads c6Fetch
    initATTRIBUTE_MAPS Kind.application c6Args
    { flags := [("--name", Value.str "app"),
                ("--description", Value.str "newdesc"),
                ("--href", Value.str "X")],
      attributes := ["href=X"] }
    [("name", Value.str "app"), ("description", Value.str "newdesc"),
     ("href", Value.str "X")]
    "name" (Value.str "app") rfl rfl rfl
  refine ⟨h.1, h.2.1.trans rfl, ?_⟩
  exact h.2.2.2 "description" (Value.str "newdesc") (by decide) (by decide)
    (by decide) rfl

/-! ## C7 — delete confirmation and forced delete -/

/-- C7: for every delete invocation whose attribute resolution succeeds,
without a truthy `--force` flag the confirmation is asked and the resource
is deleted exactly when the operator's input upper-cases to the letter `Y`,
with nothing returned either way; with a truthy `--force` flag the
confirmation is skipped, the delete is performed, and the pre-deletion
normalized record is returned. -/
theorem delete_resource_confirmation_spec
    (loads : String → Except String Value)
    (fetch : String → Value → List (String × Value))
    (get_resource_data : List (String × Value) → Value)
    (input : String) (S : Kind → Schema) (kind : Kind) (args args1 : Args)
    (attrs : List (String × Value)) (n : String) (v : Value)
    (hg : gather_resource_attributes (S kind) args = Except.ok args1)
    (hq : specialized_query loads S kind args1 = Except.ok (Value.obj attrs))
    (hp : primary_attribute kind attrs = Except.ok (n, v)) :
    (((dictGet args1.flags "--force").getD (Value.bool false)).truthy = false →
       delete_resource loads fetch get_resource_data input S kind args
         = Except.ok { deleted := (pyUpper input == "Y"),
                       returned := Option.none,
                       confirmationAsked := true }) ∧
    (((dictGet args1.flags "--force").getD (Value.bool false)).truthy = true →
       delete_resource loads fetch get_resource_data input S kind args
         = Except.ok { deleted := true,
                       returned := some (get_resource_data (fetch n v)),
                       confirmationAsked := false }) := by
  constructor
  · intro hforce
    simp only [delete_resource, hg, hq, hp, hforce]
    by_cases hy : pyUpper input = "Y"
    · simp [hy]
    · simp [hy, beq_iff_eq]
  · intro hforce
    simp only [delete_resource, hg, hq, hp, hforce]
    simp

/-- The collaborator fetch for the C7 witness. -/
def c7Fetch : String → Value → List (String × Value) := fun _ _ =>
  [("href", Value.str "h")]

/-- The normalizer (`get_resource_data`) for the C7 witness. -/
def c7Data : List (String × Value) → Value := fun r => Value.obj r

/-- A group delete invocation without `--force`. -/
def c7Args : Args :=
  { flags := [("--name", Value.str "g")], attributes := [] }

/-- A group delete invocation with `--force`. -/
def c7ArgsForce : Args :=
  { flags := [("--name", Value.str "g"), ("--force", Value.bool true)],
    attributes := [] }

/-- A JSON parser that is never consulted in the C7 witness. -/
def c7Loads : String → Except String Value := fun _ => Except.error "unused"

/-- C7 (witness): input `y` deletes (nothing returned), inputs `N` and the
empty default do not delete and return nothing, and `--force` skips the
confirmation and returns the pre-deletion record. -/
theorem delete_resource_confirmation_spec_witness :
    delete_resource c7Loads c7Fetch c7Data "y" initATTRIBUTE_MAPS Kind.group
        c7Args
      = Except.ok { deleted := true, returned := Option.none,
                    confirmationAsked := true } ∧
    delete_resource c7Loads c7Fetch c7Data "N" initATTRIBUTE_MAPS Kind.group
        c7Args
      = Except.ok { deleted := false, returned := Option.none,
                    confirmationAsked := true } ∧
    delete_resource c7Loads c7Fetch c7Data "" initATTRIBUTE_MAPS Kind.group
        c7Args
      = Except.ok { deleted := false, returned := Option.none,
                    confirmationAsked := true } ∧
    delete_resource c7Loads c7Fetch c7Data "" initATTRIBUTE_MAPS Kind.group
        c7ArgsForce
      = Except.ok { deleted := true,
                    returned := some (Value.obj [("href", Value.str "h")]),
                    confirmationAsked := false } := by
  refine ⟨?_, ?_, ?_, ?_⟩
  · exact ((delete_resource_confirmation_spec c7Loads c7Fetch c7Data "y"
      initATTRIBUTE_MAPS Kind.group c7Args c7Args
      [("name", Value.str "g")] "name" (Value.str "g")
      rfl rfl rfl).1 rfl).trans rfl
  · exact ((delete_resource_confirmation_spec c7Loads c7Fetch c7Data "N"
      initATTRIBUTE_MAPS Kind.group c7Args c7Args
      [("name", Value.str "g")] "name" (Value.str "g")
      rfl rfl rfl).1 rfl).trans rfl
  · exact ((delete_resource_confirmation_spec c7Loads c7Fetch c7Data ""
      initATTRIBUTE_MAPS Kind.group c7Args c7Args
      [("name", Value.str "g")] "name" (Value.str "g")
      rfl rfl rfl).1 rfl).trans rfl
  · exact ((delete_resource_confirmation_spec c7Loads c7Fetch c7Data ""
      initATTRIBUTE_MAPS Kind.group c7ArgsForce c7ArgsForce
      [("name", Value.str "g")] "name" (Value.str "g")
      rfl rfl rfl).2 rfl).trans rfl

/-! ## C8 — AccountStoreMapping listings are never query-filtered -/

/-- C8: when attribute gathering and the search-query build succeed, the
account-store-mapping listing always iterates the full unfiltered collection
— whatever query resolved — while every other kind applies a truthy resolved
query as a filter via `coll.query`. -/
theorem list_resources_asm_asymmetry (loads : String → Except String Value)
    (S : Kind → Schema) (kind : Kind) (args args1 : Args) (q : Value)
    (hg : gather_resource_attributes (S kind) args = Except.ok args1)
    (hq : specialized_query loads SEARCH_ATTRIBUTE_MAPS kind args1
           = Except.ok q) :
    (kind = Kind.accountStoreMapping →
       list_resources loads S kind args = Except.ok ListOutcome.unfiltered) ∧
    (kind ≠ Kind.accountStoreMapping → q.truthy = true →
       list_resources loads S kind args
         = Except.ok (ListOutcome.filtered q)) := by
  constructor
  · intro hk
    subst hk
    simp [list_resources, hg, hq]
  · intro hk ht
    simp [list_resources, hg, hq, hk, ht]

/-- A listing invocation supplying the free-text query flag. -/
def c8Args : Args :=
  { flags := [("--query", Value.str "foo")], attributes := [] }

/-- A JSON parser that is never consulted in the C8 witness. -/
def c8Loads : String → Except String Value := fun _ => Except.error "unused"

/-- C8 (witness): with `--query foo` resolving to the non-empty search set
`{q: foo}`, the account-store-mapping listing stays unfiltered while the
application listing is filtered by exactly that query. -/
theorem list_resources_asm_asymmetry_witness :
    list_resources c8Loads initATTRIBUTE_MAPS Kind.accountStoreMapping c8Args
      = Except.ok ListOutcome.unfiltered ∧
    list_resources c8Loads initATTRIBUTE_MAPS Kind.application c8Args
      = Except.ok (ListOutcome.filtered (Value.obj [("q", Value.str "foo")])) := by
  constructor
  · exact (list_resources_asm_asymmetry c8Loads initATTRIBUTE_MAPS
      Kind.accountStoreMapping c8Args c8Args
      (Value.obj [("q", Value.str "foo")]) rfl rfl).1 rfl
  · exact (list_resources_asm_asymmetry c8Loads initATTRIBUTE_MAPS
      Kind.application c8Args c8Args
      (Value.obj [("q", Value.str "foo")]) rfl rfl).2 (by decide) rfl

/-! ## C9 — the create-a-directory yes/no question -/

/-- An application create invocation with `--name` supplied, used to drive
the prompter to its extra yes/no question. -/
def c9Args : Args :=
  { flags := [("--name", Value.str "app")], attributes := [] }

/-- The prompter outcome for `c9Args` when the operator answers `fieldAns`
to the `description` prompt: the create-directory flag is stored as `b`. -/
def c9Expected (fieldAns : String) (b : Bool) : PromptOut where
  args :=
    { flags :=
        [("--name", Value.str "app"),
         ("--description", Value.str fieldAns),
         ("--create-directory", Value.bool b)],
      attributes := [] }
  promptedFields := ["description"]
  askedCreateDirectory := true

/-- An operator who answers `desc` to field prompts and `N` (upper-case) to
the yes/no question. -/
def c9IO : Prompter where
  ask := fun which _ =>
    match which with
    | some _ => "desc"
    | Option.none => "N"

/-- C9 (counterexample): the source stores `v != 'n'` — a case-*sensitive*
comparison — so the upper-case answer `N` is recorded as `True` (counts as
yes), refuting the claim that any case-insensitive `n` counts as no. -/
theorem create_directory_prompt_counterexample :
    (prompt_if_missing_parameters c9IO initATTRIBUTE_MAPS Kind.application
        c9Args).2
      = Except.ok (c9Expected "desc" true) ∧
    dictGet (c9Expected "desc" true).args.flags "--create-directory"
      = some (Value.bool true) := ⟨rfl, rfl⟩

/-- C9 (amended): any operator answer other than the *exact lower-case*
letter `n` counts as yes for the create-a-directory question (in particular
upper-case `N` and the empty default count as yes); only the exact answer
`n` counts as no. -/
theorem create_directory_prompt_spec (ans fieldAns : String)
    (h : ans ≠ "n") :
    (prompt_if_missing_parameters
        { ask := fun which _ =>
            match which with
            | some _ => fieldAns
            | Option.none => ans }
        initATTRIBUTE_MAPS Kind.application c9Args).2
      = Except.ok (c9Expected fieldAns true) := by
  have hb : (ans != "n") = true := bne_iff_ne.mpr h
  have base :
      (prompt_if_missing_parameters
          { ask := fun which _ =>
              match which with
              | some _ => fieldAns
              | Option.none => ans }
          initATTRIBUTE_MAPS Kind.application c9Args).2
        = Except.ok (c9Expected fieldAns (ans != "n")) := rfl
  rw [hb] at base
  exact base

/-- C9 (witness): both the upper-case answer `N` and the empty default are
recorded as yes. -/
theorem create_directory_prompt_spec_witness :
    (prompt_if_missing_parameters
        { ask := fun which _ =>
            match which with
            | some _ => "desc"
            | Option.none => "N" }
        initATTRIBUTE_MAPS Kind.application c9Args).2
      = Except.ok (c9Expected "desc" true) ∧
    (prompt_if_missing_parameters
        { ask := fun which _ =>
            match which with
            | some _ => "desc"
            | Option.none => "" }
        initATTRIBUTE_MAPS Kind.application c9Args).2
      = Except.ok (c9Expected "desc" true) :=
  ⟨create_directory_prompt_spec "N" "desc" (by decide),
   create_directory_prompt_spec "" "desc" (by decide)⟩

/-! ## C10 — `href` is popped from the shared full-schema table -/

/-- C10: for every kind whose full schema contains `href`, running the
create-path prompter pops `href` from the shared `ATTRIBUTE_MAPS` table (the
table the prompter returns and every later operation consults), so that:
the mutated table no longer resolves `href`; the create-path body attributes
built from the mutated table (the non-JSON branch of `_specialized_query`)
never contain an `href` field even when `--href` is supplied; and any later
inline token whose normalized name is `href` fails for that kind with the
unknown-attribute error — the full schema is not preserved across
operations. -/
theorem href_popped_from_attribute_maps (io : Prompter) (kind : Kind)
    (args : Args)
    (hhref : (dictGet (initATTRIBUTE_MAPS kind) "href").isSome = true) :
    dictGet
        ((prompt_if_missing_parameters io initATTRIBUTE_MAPS kind args).1
          kind) "href"
      = Option.none ∧
    (∀ (loads : String → Except String Value) (args2 : Args),
       dictGet args2.flags "--json" = Option.none →
       specialized_query loads
           (prompt_if_missing_parameters io initATTRIBUTE_MAPS kind args).1
           kind args2
         = Except.ok (Value.obj (query_params
             ((prompt_if_missing_parameters io initATTRIBUTE_MAPS kind
                 args).1 kind) args2)) ∧
       dictGet (query_params
           ((prompt_if_missing_parameters io initATTRIBUTE_MAPS kind
               args).1 kind) args2) "href"
         = Option.none) ∧
    (∀ (args3 : Args) (t : String) (rest : List String),
       args3.attributes = t :: rest → containsChar t '=' = true →
       replaceChar (splitFirstEq t).1 '-' '_' = "href" →
       gather_resource_attributes
           ((prompt_if_missing_parameters io initATTRIBUTE_MAPS kind
               args).1 kind) args3
         = Except.error "Unknown resource attribute: href") := by
  have htab :
      (prompt_if_missing_parameters io initATTRIBUTE_MAPS kind args).1 kind
        = dictPop (initATTRIBUTE_MAPS kind) "href" := by
    simp [prompt_if_missing_parameters, hhref]
  have hpop :
      dictGet (dictPop (initATTRIBUTE_MAPS kind) "href") "href"
        = Option.none := by
    cases kind <;> rfl
  refine ⟨by rw [htab]; exact hpop, ?_, ?_⟩
  · intro loads args2 hjson
    constructor
    · simp [specialized_query, hjson]
    · rw [htab]
      exact dictGet_query_params_none _ args2 "href" hpop
  · intro args3 t rest h3 hc hname
    have hsp : splitFirstEq t = ((splitFirstEq t).1, (splitFirstEq t).2) :=
      rfl
    rw [htab]
    unfold gather_resource_attributes
    rw [h3, gatherTokens_cons _ t rest args3 _ _ hc hsp, hname, hpop]
    exact rfl

/-- An operator who answers `x` to every prompt (C10 witness). -/
def c10IO : Prompter := { ask := fun _ _ => "x" }

/-- The application create invocation that runs the prompter (C10 witness). -/
def c10Args : Args :=
  { flags := [("--name", Value.str "app")], attributes := [] }

/-- A later argument map supplying `--href` (C10 witness). -/
def c10Args2 : Args :=
  { flags := [("--href", Value.str "H"), ("--name", Value.str "app")],
    attributes := [] }

/-- A later invocation carrying the inline token `href=Y` (C10 witness). -/
def c10Args3 : Args := { flags := [], attributes := ["href=Y"] }

/-- A JSON parser that is never consulted in the C10 witness. -/
def c10Loads : String → Except String Value := fun _ => Except.error "unused"

/-- C10 (witness): after the application create prompter runs, the shared
table no longer contains `href`; building body attributes with a supplied
`--href H` yields only `{name: app}` (no `href` field); and the later inline
token `href=Y` fails with the unknown-attribute error. -/
theorem href_popped_from_attribute_maps_witness :
    dictGet
        ((prompt_if_missing_parameters c10IO initATTRIBUTE_MAPS
            Kind.application c10Args).1 Kind.application) "href"
      = Option.none ∧
    specialized_query c10Loads
        (prompt_if_missing_parameters c10IO initATTRIBUTE_MAPS
            Kind.application c10Args).1 Kind.application c10Args2
      = Except.ok (Value.obj [("name", Value.str "app")]) ∧
    gather_resource_attributes
        ((prompt_if_missing_parameters c10IO initATTRIBUTE_MAPS
            Kind.application c10Args).1 Kind.application) c10Args3
      = Except.error "Unknown resource attribute: href" := by
  have h := href_popped_from_attribute_maps c10IO Kind.application c10Args
    rfl
  refine ⟨h.1, ?_, ?_⟩
  · exact ((h.2.1 c10Loads c10Args2 rfl).1).trans rfl
  · exact h.2.2 c10Args3 "href=Y" [] rfl rfl rfl
